import Mathlib

/-!
Shallow embedding of `src/mongo-exporter/src/index.js` (the reconciliation
core of the monitoring stack): the numeric normalizer `toNumber`, the
snapshot store and delta-counter reconciliation `updateCounters`, the
topology collector `collectReplicaMetrics`, and the poll-cycle orchestrator
`collectOnce`.

JavaScript numbers are modelled as `JSNum`: a finite rational, NaN, or a
signed infinity.  JavaScript runtime values reaching `toNumber` are
modelled as `JSValue`; coercions whose semantics live outside this file
(string-to-number parsing, an object's own `toNumber` method, `toString`,
`valueOf`) are carried as data on the value, since the source treats them
as opaque calls.  Prometheus metrics are modelled as their exported state:
an unlabelled gauge is a rational, a labelled gauge is a map from label
value to `Option` rational (a series exists only once set), and a labelled
counter is likewise a map from label value to `Option` rational holding the
exported running total (`inc` creates an absent series at 0, then adds).
-/

namespace MongoExporter

/-- A JavaScript number: finite (exact rational model), NaN, or ±∞. -/
inductive JSNum where
  | finite (q : ℚ)
  | nan
  | inf
  | ninf
  deriving DecidableEq, Repr

/-- `Number.isFinite` on a JavaScript number. -/
def JSNum.isFinite : JSNum → Bool
  | .finite _ => true
  | _ => false

/-- `Number.isNaN` on a JavaScript number. -/
def JSNum.isNaN : JSNum → Bool
  | .nan => true
  | _ => false

/-- An object value as inspected by `toNumber` (lines 49-54 of the source):
whether it has a callable `toNumber` method (and what that call returns),
its `_bsontype` tag, the numeric coercion `Number(value.value)` of its
`value` field, the coercion `Number(value.toString())`, and the fallback
coercion `Number(value)`.  The results of these opaque calls are carried as
data. -/
structure JSObject where
  toNumberFn : Option JSNum
  bsontype : Option String
  valueNum : JSNum
  toStringNum : JSNum
  coercion : JSNum
  deriving DecidableEq, Repr

/-- A JavaScript runtime value as it can reach `toNumber`.  A string
carries both its text and its numeric coercion `Number(s)` (the parsing
algorithm itself is outside the embedded program). -/
inductive JSValue where
  | nullV
  | undefinedV
  | num (x : JSNum)
  | bigintV (n : ℤ)
  | strV (s : String) (coercion : JSNum)
  | boolV (b : Bool)
  | objV (o : JSObject)
  deriving DecidableEq, Repr

/-- The numeric normalizer, source lines 45-57.
`value == null` is true exactly for `null` and `undefined`; a value of
number type is returned unchanged (even NaN or ±∞); a bigint is converted
with `Number(value)` (modelled exactly); an object is probed for a
`toNumber` method, then for the BSON wrapper types; anything else falls
through to `Number(value)`, with `undefined` returned when that parses to
NaN.  `Number(true) = 1` and `Number(false) = 0`, never NaN. -/
def toNumber : JSValue → Option JSNum
  | .nullV => none
  | .undefinedV => none
  | .num x => some x
  | .bigintV n => some (.finite (n : ℚ))
  | .objV o =>
      match o.toNumberFn with
      | some r => some r
      | none =>
          if o.bsontype = some "Decimal128" then some o.toStringNum
          else if o.bsontype = some "Double" then some o.valueNum
          else if o.bsontype = some "Int32" then some o.valueNum
          else if o.coercion.isNaN then none else some o.coercion
  | .strV _ c => if c.isNaN then none else some c
  | .boolV b => some (.finite (if b then 1 else 0))

/-- Result of reconciling one key in `updateCounters`: the snapshot-store
entry for the key afterwards, and the increment passed to `counter.inc`
(`none` when `inc` was not called this cycle). -/
structure KeyStep where
  store : Option ℚ
  incD : Option ℚ
  deriving DecidableEq, Repr

/-- The per-key body of `updateCounters` (source lines 61-67).  The store
only ever receives values that passed `Number.isFinite`, so its entries
are finite rationals and the source's `Number.isFinite(previous)` guard is
exactly "an entry exists".  A non-finite or unavailable `currentValue`
returns early: the store entry is untouched and no increment is emitted. -/
def reconcileKey (prev : Option ℚ) (raw : JSValue) : KeyStep :=
  match toNumber raw with
  | none => { store := prev, incD := none }
  | some cv =>
      match cv with
      | .finite q =>
          match prev with
          | some p =>
              if p ≤ q then { store := some q, incD := some (q - p) }
              else { store := some q, incD := none }
          | none => { store := some q, incD := none }
      | _ => { store := prev, incD := none }

/-- The increment a `KeyStep` applies to the exported counter total:
the argument of the `inc` call, or zero when `inc` was not called. -/
def KeyStep.emitted (st : KeyStep) : ℚ :=
  st.incD.getD 0

/-- Point update of a labelled-metric map (`gauge.set({label}, v)`). -/
def fset (m : String → Option ℚ) (k : String) (v : ℚ) : String → Option ℚ :=
  fun k' => if k' = k then some v else m k'

/-- `counter.inc({label: k}, d)`: an absent series is created at 0, then
`d` is added to its running total. -/
def cinc (m : String → Option ℚ) (k : String) (d : ℚ) : String → Option ℚ :=
  fun k' => if k' = k then some ((m k).getD 0 + d) else m k'

/-- `updateCounters` (source lines 59-69): fold the per-key reconciliation
over `Object.entries(current)`, threading the snapshot store for this
counter family and the exported counter state.  The early `return` inside
the `forEach` callback continues with the next entry. -/
def updateCounters : List (String × JSValue) → (String → Option ℚ) →
    (String → Option ℚ) → (String → Option ℚ) × (String → Option ℚ)
  | [], store, counter => (store, counter)
  | (k, raw) :: rest, store, counter =>
      updateCounters rest
        (fun k' => if k' = k then (reconcileKey (store k) raw).store else store k')
        (match (reconcileKey (store k) raw).incD with
         | some d => cinc counter k d
         | none => counter)

/-- A sequence of poll cycles as seen by one counter family: each cycle
contributes one `Object.entries` list, folded through `updateCounters`. -/
def runCycles : List (List (String × JSValue)) →
    (String → Option ℚ) × (String → Option ℚ) →
    (String → Option ℚ) × (String → Option ℚ)
  | [], sc => sc
  | c :: rest, sc => runCycles rest (updateCounters c sc.1 sc.2)

/-- JavaScript truthiness of the values in this embedding: `null`,
`undefined`, `0`, `NaN`, the empty string, `0n` and `false` are falsy;
every object is truthy. -/
def truthy : JSValue → Bool
  | .nullV => false
  | .undefinedV => false
  | .num (.finite q) => q ≠ 0
  | .num .nan => false
  | .num .inf => true
  | .num .ninf => true
  | .bigintV n => n ≠ 0
  | .strV s _ => s ≠ ""
  | .boolV b => b
  | .objV _ => true

/-- JavaScript multiplication of a possibly-unavailable number by a
positive literal (source line 107 multiplies by `1024 * 1024`):
`undefined * c` and `NaN * c` are NaN, `±∞ * c` keeps its sign for
`0 < c`. -/
def jsScale : Option JSNum → ℚ → JSNum
  | none, _ => .nan
  | some (.finite q), c => .finite (q * c)
  | some .nan, _ => .nan
  | some .inf, c => if 0 < c then .inf else if c < 0 then .ninf else .nan
  | some .ninf, c => if 0 < c then .ninf else if c < 0 then .inf else .nan

/-- `status.mem` as read by `setMemoryMetrics`; an absent `mem` becomes
the default `{}`, whose fields read as `undefined`. -/
structure MemStats where
  resident : JSValue
  virtualMem : JSValue
  deriving Repr

/-- `status.connections` as read by `setConnections`. -/
structure ConnStats where
  current : JSValue
  available : JSValue
  deriving Repr

/-- One entry of `status.members` in the `replSetGetStatus` response.
`name` and `stateStr` model the raw (possibly absent) string fields;
`stateToString` carries `String(member.state)`, used when `stateStr` is
falsy; `optimeDateMs` is `optimeDate.getTime()` when `optimeDate` is a
`Date` instance, `none` otherwise. -/
structure ReplMember where
  name : Option String
  stateStr : Option String
  stateToString : String
  state : JSValue
  health : JSValue
  optimeDateMs : Option ℤ
  deriving Repr

/-- The `replSetGetStatus` response: `members` is `none` when the field is
nullish (the source applies `?? []`); `oplogSizeMB` is
`status.storageEngine?.oplogSizeMB` with `undefinedV` covering an absent
`storageEngine`. -/
structure ReplStatus where
  members : Option (List ReplMember)
  oplogSizeMB : JSValue
  deriving Repr

/-- The `serverStatus` fields read by `collectOnce`.  Each counter family
is `Object.entries` of the corresponding sub-document, `none` when the
(optionally chained) sub-document is absent, in which case the
`current = {}` default parameter of `updateCounters` yields no entries. -/
structure ServerStatus where
  uptime : JSValue
  mem : Option MemStats
  connections : Option ConnStats
  opcounters : Option (List (String × JSValue))
  opcountersRepl : Option (List (String × JSValue))
  metricsDocument : Option (List (String × JSValue))
  metricsQueryExecutor : Option (List (String × JSValue))
  metricsOperation : Option (List (String × JSValue))
  locksGlobalTimeAcquiringMicros : Option (List (String × JSValue))
  networkBytesIn : JSValue
  networkBytesOut : JSValue
  deriving Repr

/-- Why the `serverStatus` command failed. -/
inductive StatErr where
  | connectionLost
  | timeout
  deriving DecidableEq, Repr

/-- Why the `replSetGetStatus` command failed (source: "query unsupported,
timeout, malformed response"). -/
inductive TopoErr where
  | unsupported
  | timeout
  | malformed
  deriving DecidableEq, Repr

/-- The exported metric state of the process, together with the snapshot
store (`snapshots` object, source lines 35-43).  Unlabelled gauges are
rationals; labelled gauges and counters map each label combination to the
value of that series, `none` while the series has never been written. -/
structure ExporterState where
  mongoUp : ℚ
  mongoUptime : ℚ
  mongoConnections : String → Option ℚ
  mongoMemory : String → Option ℚ
  opCounters : String → Option ℚ
  opCountersRepl : String → Option ℚ
  documentMetrics : String → Option ℚ
  queryExecutorMetrics : String → Option ℚ
  operationMetrics : String → Option ℚ
  locksTime : String → Option ℚ
  networkBytes : String → Option ℚ
  replMembers : ℚ
  replHealth : String → Option ℚ
  replState : String → String → Option ℚ
  replOplogSize : String → Option ℚ
  replOplogHead : ℚ
  snapOpcounters : String → Option ℚ
  snapOpcountersRepl : String → Option ℚ
  snapMetricsDocument : String → Option ℚ
  snapMetricsQuery : String → Option ℚ
  snapMetricsOperation : String → Option ℚ
  snapLocks : String → Option ℚ
  snapNetwork : String → Option ℚ

/-- Point update of a doubly-labelled gauge
(`replState.set({state, name}, v)`). -/
def fset2 (m : String → String → Option ℚ) (k1 k2 : String) (v : ℚ) :
    String → String → Option ℚ :=
  fun k1' k2' => if k1' = k1 ∧ k2' = k2 then some v else m k1' k2'

/-- `x || d` on an optional string: the JavaScript `||` falls through on
the falsy values `undefined` and `""`. -/
def strOr (x : Option String) (d : String) : String :=
  match x with
  | some s => if s = "" then d else s
  | none => d

/-- First half of the `members.forEach` body (source line 99): set the
member's health gauge when its normalized value is finite. -/
def applyMemberHealth (s : ExporterState) (m : ReplMember) : ExporterState :=
  match toNumber m.health with
  | some (.finite h) =>
      { s with replHealth := fset s.replHealth (strOr m.name "member") h }
  | _ => s

/-- Second half of the `members.forEach` body (source line 100): set the
member's state gauge when its normalized value is finite. -/
def applyMemberState (s : ExporterState) (m : ReplMember) : ExporterState :=
  match toNumber m.state with
  | some (.finite st) =>
      { s with replState :=
          fset2 s.replState (strOr m.stateStr m.stateToString) (strOr m.name "member") st }
  | _ => s

/-- The `members.forEach` body of `collectReplicaMetrics` (source lines
94-101). -/
def applyMember (s : ExporterState) (m : ReplMember) : ExporterState :=
  applyMemberState (applyMemberHealth s m) m

/-- Source lines 102-105: the primary-like member is the first one whose
raw `stateStr` is strictly equal to `"PRIMARY"`, else the first member
(`||` falls through on `find`'s `undefined`); the oplog head gauge is set
from its `optimeDate` only when that is a `Date` instance. -/
def applyOplogHead (s : ExporterState) (members : List ReplMember) : ExporterState :=
  match (members.find? (fun m => m.stateStr = some "PRIMARY")).orElse
      (fun _ => members.head?) with
  | some m =>
      match m.optimeDateMs with
      | some t => { s with replOplogHead := (t : ℚ) / 1000 }
      | none => s
  | none => s

/-- Source lines 106-109: when `storageEngine?.oplogSizeMB` is truthy, set
the allocated oplog size to its normalized value scaled to bytes, guarded
by `Number.isFinite`. -/
def applyOplogSize (s : ExporterState) (oplogSizeMB : JSValue) : ExporterState :=
  if truthy oplogSizeMB then
    match jsScale (toNumber oplogSizeMB) (1024 * 1024) with
    | .finite b => { s with replOplogSize := fset s.replOplogSize "allocated" b }
    | _ => s
  else s

/-- The topology collector `collectReplicaMetrics` (source lines 89-117),
as a total function over the outcome of the `replSetGetStatus` command.
On success: member count, per-member gauges, the oplog head from the
primary-like member, and the allocated oplog size.  On any error: the
fixed standalone fallback (source lines 110-116). -/
def collectReplicaMetrics (s : ExporterState)
    (outcome : Except TopoErr ReplStatus) : ExporterState :=
  match outcome with
  | .ok status =>
      applyOplogSize
        (applyOplogHead
          ((status.members.getD []).foldl applyMember
            { s with replMembers := ((status.members.getD []).length : ℚ) })
          (status.members.getD []))
        status.oplogSizeMB
  | .error _ =>
      { s with
        replMembers := 1
        replHealth := fset s.replHealth "standalone" 1
        replState := fset2 s.replState "standalone" "standalone" 1
        replOplogHead := 0
        replOplogSize := fset s.replOplogSize "allocated" 0 }

/-- Source line 74: the resident-memory gauge, set only when finite. -/
def setMemResident (s : ExporterState) (mem : MemStats) : ExporterState :=
  match toNumber mem.resident with
  | some (.finite r) =>
      { s with mongoMemory := fset s.mongoMemory "resident" (r * 1024 * 1024) }
  | _ => s

/-- Source line 75: the virtual-memory gauge, set only when finite. -/
def setMemVirtual (s : ExporterState) (mem : MemStats) : ExporterState :=
  match toNumber mem.virtualMem with
  | some (.finite v) =>
      { s with mongoMemory := fset s.mongoMemory "virtual" (v * 1024 * 1024) }
  | _ => s

/-- `setMemoryMetrics` (source lines 71-76): megabyte fields scaled to
bytes, each set only when finite. -/
def setMemoryMetrics (s : ExporterState) (mem : MemStats) : ExporterState :=
  setMemVirtual (setMemResident s mem) mem

/-- Source line 81. -/
def setConnCurrent (s : ExporterState) (c : ConnStats) : ExporterState :=
  match toNumber c.current with
  | some (.finite v) =>
      { s with mongoConnections := fset s.mongoConnections "current" v }
  | _ => s

/-- Source line 82. -/
def setConnAvailable (s : ExporterState) (c : ConnStats) : ExporterState :=
  match toNumber c.available with
  | some (.finite v) =>
      { s with mongoConnections := fset s.mongoConnections "available" v }
  | _ => s

/-- `setConnections` (source lines 78-83). -/
def setConnections (s : ExporterState) (c : ConnStats) : ExporterState :=
  setConnAvailable (setConnCurrent s c) c

/-- `mongoUptime.set` guarded by `Number.isFinite` (source lines 123-124). -/
def setUptime (s : ExporterState) (uptime : JSValue) : ExporterState :=
  match toNumber uptime with
  | some (.finite u) => { s with mongoUptime := u }
  | _ => s

/-- The success-path block of `collectOnce` between `mongoUp.set(1)` and
`collectReplicaMetrics` (source lines 123-133): uptime, memory and
connection gauges, then the seven counter families through
`updateCounters`. -/
def applyServerStatus (s : ExporterState) (st : ServerStatus) : ExporterState :=
  let s1 := setUptime s st.uptime
  let s2 := setMemoryMetrics s1
    (st.mem.getD { resident := .undefinedV, virtualMem := .undefinedV })
  let s3 := setConnections s2
    (st.connections.getD { current := .undefinedV, available := .undefinedV })
  let p1 := updateCounters (st.opcounters.getD []) s3.snapOpcounters s3.opCounters
  let s4 := { s3 with snapOpcounters := p1.1, opCounters := p1.2 }
  let p2 := updateCounters (st.opcountersRepl.getD []) s4.snapOpcountersRepl s4.opCountersRepl
  let s5 := { s4 with snapOpcountersRepl := p2.1, opCountersRepl := p2.2 }
  let p3 := updateCounters (st.metricsDocument.getD []) s5.snapMetricsDocument s5.documentMetrics
  let s6 := { s5 with snapMetricsDocument := p3.1, documentMetrics := p3.2 }
  let p4 := updateCounters (st.metricsQueryExecutor.getD []) s6.snapMetricsQuery s6.queryExecutorMetrics
  let s7 := { s6 with snapMetricsQuery := p4.1, queryExecutorMetrics := p4.2 }
  let p5 := updateCounters (st.metricsOperation.getD []) s7.snapMetricsOperation s7.operationMetrics
  let s8 := { s7 with snapMetricsOperation := p5.1, operationMetrics := p5.2 }
  let p6 := updateCounters (st.locksGlobalTimeAcquiringMicros.getD []) s8.snapLocks s8.locksTime
  let s9 := { s8 with snapLocks := p6.1, locksTime := p6.2 }
  let p7 := updateCounters
    [("bytesIn", st.networkBytesIn), ("bytesOut", st.networkBytesOut)]
    s9.snapNetwork s9.networkBytes
  { s9 with snapNetwork := p7.1, networkBytes := p7.2 }

/-- One poll cycle, `collectOnce` (source lines 119-139), as a function of
the outcomes of the two external commands.  When `serverStatus` throws,
the `catch` block only sets `mongoUp` to 0 and logs; nothing else of the
cycle runs (the topology query is never issued).  When it succeeds,
`mongoUp` is set to 1 first, then the gauges and counter families are
updated, then the topology collector runs (whose own failure is handled
inside it and does not reach this `catch`). -/
def collectOnce (s : ExporterState) (statusOut : Except StatErr ServerStatus)
    (topoOut : Except TopoErr ReplStatus) : ExporterState :=
  match statusOut with
  | .error _ => { s with mongoUp := 0 }
  | .ok st => collectReplicaMetrics (applyServerStatus { s with mongoUp := 1 } st) topoOut

/-- The exporter's state at process start: unlabelled gauges register at
0, no labelled series exists, the snapshot store is empty. -/
def initState : ExporterState where
  mongoUp := 0
  mongoUptime := 0
  mongoConnections := fun _ => none
  mongoMemory := fun _ => none
  opCounters := fun _ => none
  opCountersRepl := fun _ => none
  documentMetrics := fun _ => none
  queryExecutorMetrics := fun _ => none
  operationMetrics := fun _ => none
  locksTime := fun _ => none
  networkBytes := fun _ => none
  replMembers := 0
  replHealth := fun _ => none
  replState := fun _ _ => none
  replOplogSize := fun _ => none
  replOplogHead := 0
  snapOpcounters := fun _ => none
  snapOpcountersRepl := fun _ => none
  snapMetricsDocument := fun _ => none
  snapMetricsQuery := fun _ => none
  snapMetricsOperation := fun _ => none
  snapLocks := fun _ => none
  snapNetwork := fun _ => none

/-! ## Reconciliation lemmas -/

/-- A raw value whose normalization is unavailable or non-finite leaves
the store entry untouched and emits nothing (the early `return` on
`!Number.isFinite(currentValue)`). -/
lemma reconcileKey_unavailable (raw : JSValue)
    (h : toNumber raw = none ∨ ∃ x, toNumber raw = some x ∧ x.isFinite = false)
    (prev : Option ℚ) :
    reconcileKey prev raw = { store := prev, incD := none } := by
  unfold reconcileKey
  rcases h with h | ⟨x, hx, hfin⟩
  · rw [h]
  · rw [hx]
    cases x with
    | finite q => simp [JSNum.isFinite] at hfin
    | nan => rfl
    | inf => rfl
    | ninf => rfl

/-- First observation of a key: the baseline is stored, no increment. -/
lemma reconcileKey_first (raw : JSValue) (q : ℚ)
    (h : toNumber raw = some (.finite q)) :
    reconcileKey none raw = { store := some q, incD := none } := by
  unfold reconcileKey
  rw [h]

/-- Growing (or tied) observation: increment is the exact difference. -/
lemma reconcileKey_incr (raw : JSValue) (p q : ℚ)
    (h : toNumber raw = some (.finite q)) (hpq : p ≤ q) :
    reconcileKey (some p) raw = { store := some q, incD := some (q - p) } := by
  unfold reconcileKey
  rw [h]
  simp [hpq]

/-- Reset observation: the store is re-baselined downward and `inc` is
not called. -/
lemma reconcileKey_reset (raw : JSValue) (p q : ℚ)
    (h : toNumber raw = some (.finite q)) (hqp : q < p) :
    reconcileKey (some p) raw = { store := some q, incD := none } := by
  unfold reconcileKey
  rw [h]
  simp [not_le.mpr hqp]

/-- Every increment actually passed to `counter.inc` is non-negative. -/
lemma reconcileKey_incD_nonneg (prev : Option ℚ) (raw : JSValue) (d : ℚ)
    (h : (reconcileKey prev raw).incD = some d) : 0 ≤ d := by
  cases htn : toNumber raw with
  | none =>
      rw [reconcileKey_unavailable raw (Or.inl htn) prev] at h
      exact absurd h (by simp)
  | some x =>
      cases x with
      | finite q =>
          cases prev with
          | none =>
              rw [reconcileKey_first raw q htn] at h
              exact absurd h (by simp)
          | some p =>
              by_cases hpq : p ≤ q
              · rw [reconcileKey_incr raw p q htn hpq] at h
                simp only [Option.some.injEq] at h
                linarith [sub_nonneg.mpr hpq]
              · rw [reconcileKey_reset raw p q htn (not_le.mp hpq)] at h
                exact absurd h (by simp)
      | nan =>
          rw [reconcileKey_unavailable raw (Or.inr ⟨.nan, htn, rfl⟩) prev] at h
          exact absurd h (by simp)
      | inf =>
          rw [reconcileKey_unavailable raw (Or.inr ⟨.inf, htn, rfl⟩) prev] at h
          exact absurd h (by simp)
      | ninf =>
          rw [reconcileKey_unavailable raw (Or.inr ⟨.ninf, htn, rfl⟩) prev] at h
          exact absurd h (by simp)

/-- `cinc` with a non-negative delta never decreases an exported total. -/
lemma cinc_getD_le (m : String → Option ℚ) (k : String) (d : ℚ)
    (hd : 0 ≤ d) (k' : String) :
    (m k').getD 0 ≤ (cinc m k d k').getD 0 := by
  unfold cinc
  by_cases hk : k' = k
  · subst hk
    simp only [if_pos rfl, Option.getD_some]
    have : (0 : ℚ) ≤ d := hd
    cases m k' <;> simp <;> linarith
  · simp [hk]

/-- One `updateCounters` cycle never decreases any exported total. -/
lemma updateCounters_counter_le (l : List (String × JSValue)) :
    ∀ store counter k,
      (counter k).getD 0 ≤ ((updateCounters l store counter).2 k).getD 0 := by
  induction l with
  | nil => intro store counter k; exact le_refl _
  | cons e rest ih =>
      intro store counter k
      obtain ⟨ke, raw⟩ := e
      unfold updateCounters
      refine le_trans ?_ (ih _ _ k)
      cases hinc : (reconcileKey (store ke) raw).incD with
      | none => simp [hinc]
      | some d =>
          simp only [hinc]
          exact cinc_getD_le counter ke d (reconcileKey_incD_nonneg _ _ _ hinc) k

/-- Splitting a run of cycles. -/
lemma runCycles_append (a b : List (List (String × JSValue))) :
    ∀ sc, runCycles (a ++ b) sc = runCycles b (runCycles a sc) := by
  induction a with
  | nil => intro sc; rfl
  | cons c rest ih => intro sc; exact ih (updateCounters c sc.1 sc.2)

/-- A run of cycles never decreases any exported total. -/
lemma runCycles_counter_le (cycles : List (List (String × JSValue))) :
    ∀ sc k, (sc.2 k).getD 0 ≤ ((runCycles cycles sc).2 k).getD 0 := by
  induction cycles with
  | nil => intro sc k; exact le_refl _
  | cons c rest ih =>
      intro sc k
      exact le_trans (updateCounters_counter_le c sc.1 sc.2 k)
        (ih (updateCounters c sc.1 sc.2) k)

/-- Claim C1: every increment `updateCounters` passes to the exported
counter is non-negative; consequently one cycle never decreases an
exported counter total, and along any sequence of polled cycles
(resets included) the sequence of exported totals is non-decreasing. -/
theorem C1_counter_monotonicity :
    (∀ prev raw d, (reconcileKey prev raw).incD = some d → 0 ≤ d) ∧
    (∀ entries store counter k,
      (counter k).getD 0 ≤ ((updateCounters entries store counter).2 k).getD 0) ∧
    (∀ a b sc k,
      ((runCycles a sc).2 k).getD 0 ≤ ((runCycles (a ++ b) sc).2 k).getD 0) :=
  ⟨fun prev raw d h => reconcileKey_incD_nonneg prev raw d h,
   fun entries store counter k => updateCounters_counter_le entries store counter k,
   fun a b sc k => by
     rw [runCycles_append]
     exact runCycles_counter_le b (runCycles a sc) k⟩

/-- Witness for C1: the increment for previous total 100 and new value
130 is 30, and it is non-negative. -/
theorem C1_counter_monotonicity_witness :
    (reconcileKey (some 100) (.num (.finite 130))).incD = some 30 ∧ (0 : ℚ) ≤ 30 :=
  ⟨by norm_num [reconcileKey, toNumber],
   C1_counter_monotonicity.1 (some 100) (.num (.finite 130)) 30
     (by norm_num [reconcileKey, toNumber])⟩

/-- Claim C2: one reconciliation step follows the three-case algorithm.
With no previous value the new normalized value becomes the baseline and
`inc` is not called; with `newValue ≥ previous` the increment is exactly
the difference (zero on ties) and the new value is stored; with
`newValue < previous` (a reset) the increment applied to the exported
total is zero — `inc` is simply not called, so in particular no negative
increment is ever emitted — and the store is re-baselined to `newValue`. -/
theorem C2_reconcile_three_cases (raw : JSValue) (q : ℚ)
    (h : toNumber raw = some (.finite q)) :
    reconcileKey none raw = { store := some q, incD := none } ∧
    (∀ p : ℚ, p ≤ q →
      reconcileKey (some p) raw = { store := some q, incD := some (q - p) }) ∧
    (∀ p : ℚ, q < p →
      (reconcileKey (some p) raw).store = some q ∧
      (reconcileKey (some p) raw).emitted = 0 ∧
      ∀ d, (reconcileKey (some p) raw).incD = some d → 0 ≤ d) :=
  ⟨reconcileKey_first raw q h,
   fun p hpq => reconcileKey_incr raw p q h hpq,
   fun p hqp => by
     rw [reconcileKey_reset raw p q h hqp]
     exact ⟨rfl, rfl, fun d hd => absurd hd (by simp)⟩⟩

/-- Witness for C2: first observation of 7 stores 7 with no increment;
130 over baseline 100 emits exactly 30; 5 over baseline 100 (a reset)
re-baselines to 5 and applies a zero increment. -/
theorem C2_reconcile_three_cases_witness :
    reconcileKey none (.num (.finite 7)) = { store := some 7, incD := none } ∧
    reconcileKey (some 100) (.num (.finite 130)) =
      { store := some 130, incD := some (130 - 100) } ∧
    (reconcileKey (some 100) (.num (.finite 5))).store = some 5 ∧
    (reconcileKey (some 100) (.num (.finite 5))).emitted = 0 :=
  ⟨(C2_reconcile_three_cases (.num (.finite 7)) 7 rfl).1,
   (C2_reconcile_three_cases (.num (.finite 130)) 130 rfl).2.1 100 (by norm_num),
   ((C2_reconcile_three_cases (.num (.finite 5)) 5 rfl).2.2 100 (by norm_num)).1,
   ((C2_reconcile_three_cases (.num (.finite 5)) 5 rfl).2.2 100 (by norm_num)).2.1⟩

/-- Unfolding one entry of `updateCounters`. -/
lemma updateCounters_cons (k : String) (raw : JSValue)
    (rest : List (String × JSValue)) (store counter : String → Option ℚ) :
    updateCounters ((k, raw) :: rest) store counter =
      updateCounters rest
        (fun k' => if k' = k then (reconcileKey (store k) raw).store else store k')
        (match (reconcileKey (store k) raw).incD with
         | some d => cinc counter k d
         | none => counter) := rfl

/-- Skipping an unavailable entry: the cycle continues over the remaining
entries with the store and counter unchanged. -/
lemma updateCounters_skip (k : String) (raw : JSValue)
    (h : toNumber raw = none ∨ ∃ x, toNumber raw = some x ∧ x.isFinite = false)
    (rest : List (String × JSValue)) (store counter : String → Option ℚ) :
    updateCounters ((k, raw) :: rest) store counter =
      updateCounters rest store counter := by
  rw [updateCounters_cons, reconcileKey_unavailable raw h (store k)]
  have hstore :
      (fun k' => if k' = k
        then ({ store := store k, incD := (none : Option ℚ) } : KeyStep).store
        else store k') = store := by
    funext k'
    by_cases hk : k' = k
    · rw [if_pos hk, hk]
    · rw [if_neg hk]
  rw [hstore]

/-- Claim C3: an unavailable (or non-finite) normalized value is inert:
the stored baseline is unchanged and `inc` is not called for that key;
the cycle processes the remaining entries exactly as if the unavailable
entry were absent; and a subsequent valid sample is differenced against
the last valid baseline, not against a synthesized zero. -/
theorem C3_unavailable_inert (raw : JSValue)
    (h : toNumber raw = none ∨ ∃ x, toNumber raw = some x ∧ x.isFinite = false) :
    (∀ prev, reconcileKey prev raw = { store := prev, incD := none }) ∧
    (∀ k rest store counter,
      updateCounters ((k, raw) :: rest) store counter =
        updateCounters rest store counter) ∧
    (∀ p q good, toNumber good = some (.finite q) → p ≤ q →
      reconcileKey ((reconcileKey (some p) raw).store) good =
        { store := some q, incD := some (q - p) }) :=
  ⟨fun prev => reconcileKey_unavailable raw h prev,
   fun k rest store counter => updateCounters_skip k raw h rest store counter,
   fun p q good hg hpq => by
     rw [reconcileKey_unavailable raw h (some p)]
     exact reconcileKey_incr good p q hg hpq⟩

/-- Witness for C3: an `undefined` raw value over baseline 4 is inert,
skipping it leaves a concrete cycle unchanged, and a following valid
sample 9 is differenced against the baseline 4. -/
theorem C3_unavailable_inert_witness :
    reconcileKey (some 4) .undefinedV = { store := some 4, incD := none } ∧
    updateCounters [("a", .undefinedV)] (fun _ => some 4) (fun _ => none) =
      updateCounters [] (fun _ => some 4) (fun _ => none) ∧
    reconcileKey ((reconcileKey (some 4) .undefinedV).store) (.num (.finite 9)) =
      { store := some 9, incD := some (9 - 4) } :=
  ⟨(C3_unavailable_inert .undefinedV (Or.inl rfl)).1 (some 4),
   (C3_unavailable_inert .undefinedV (Or.inl rfl)).2.1 "a" []
     (fun _ => some 4) (fun _ => none),
   (C3_unavailable_inert .undefinedV (Or.inl rfl)).2.2 4 9 (.num (.finite 9))
     rfl (by norm_num)⟩

/-- Counterexample to claim C9 as stated: the stored baseline is not
monotonically non-decreasing across reconciled updates — reconciling new
value 5 against stored baseline 100 re-baselines the store to 5 < 100. -/
theorem C9_counterexample :
    (reconcileKey (some 100) (.num (.finite 5))).store = some 5 ∧
    (5 : ℚ) < 100 := by
  constructor
  · rw [reconcileKey_reset (.num (.finite 5)) 100 5 rfl (by norm_num)]
  · norm_num

/-- Claim C9 (amended): the stored `lastObservedValue` can decrease, but
only at a reset event (`newValue < previous`), and there the reset is
detected, not propagated: `inc` is not called, so no negative delta
reaches the exported counter.  Whenever an increment is emitted, it is
non-negative and the baseline did not decrease. -/
theorem C9_baseline_reset_only (prev : ℚ) (raw : JSValue) :
    (∀ q, (reconcileKey (some prev) raw).store = some q → q < prev →
      (reconcileKey (some prev) raw).incD = none) ∧
    (∀ d, (reconcileKey (some prev) raw).incD = some d →
      0 ≤ d ∧ ∃ q, (reconcileKey (some prev) raw).store = some q ∧ prev ≤ q) := by
  constructor
  · intro q hst hlt
    cases htn : toNumber raw with
    | none => rw [reconcileKey_unavailable raw (Or.inl htn) (some prev)]
    | some x =>
        cases x with
        | finite q' =>
            by_cases hpq : prev ≤ q'
            · rw [reconcileKey_incr raw prev q' htn hpq] at hst ⊢
              simp only [KeyStep.store, Option.some.injEq] at hst
              subst hst
              exact absurd hpq (not_le.mpr hlt)
            · rw [reconcileKey_reset raw prev q' htn (not_le.mp hpq)]
        | nan => rw [reconcileKey_unavailable raw (Or.inr ⟨.nan, htn, rfl⟩) (some prev)]
        | inf => rw [reconcileKey_unavailable raw (Or.inr ⟨.inf, htn, rfl⟩) (some prev)]
        | ninf => rw [reconcileKey_unavailable raw (Or.inr ⟨.ninf, htn, rfl⟩) (some prev)]
  · intro d hd
    refine ⟨reconcileKey_incD_nonneg (some prev) raw d hd, ?_⟩
    cases htn : toNumber raw with
    | none =>
        rw [reconcileKey_unavailable raw (Or.inl htn) (some prev)] at hd
        exact absurd hd (by simp)
    | some x =>
        cases x with
        | finite q' =>
            by_cases hpq : prev ≤ q'
            · refine ⟨q', ?_, hpq⟩
              rw [reconcileKey_incr raw prev q' htn hpq]
            · rw [reconcileKey_reset raw prev q' htn (not_le.mp hpq)] at hd
              exact absurd hd (by simp)
        | nan =>
            rw [reconcileKey_unavailable raw (Or.inr ⟨.nan, htn, rfl⟩) (some prev)] at hd
            exact absurd hd (by simp)
        | inf =>
            rw [reconcileKey_unavailable raw (Or.inr ⟨.inf, htn, rfl⟩) (some prev)] at hd
            exact absurd hd (by simp)
        | ninf =>
            rw [reconcileKey_unavailable raw (Or.inr ⟨.ninf, htn, rfl⟩) (some prev)] at hd
            exact absurd hd (by simp)

/-- Witness for C9 (amended): at the reset from baseline 100 to new value
5, the store drops to 5 and no increment is emitted. -/
theorem C9_baseline_reset_only_witness :
    (reconcileKey (some 100) (.num (.finite 5))).store = some 5 ∧
    (reconcileKey (some 100) (.num (.finite 5))).incD = none :=
  ⟨by rw [reconcileKey_reset (.num (.finite 5)) 100 5 rfl (by norm_num)],
   (C9_baseline_reset_only 100 (.num (.finite 5))).1 5
     (by rw [reconcileKey_reset (.num (.finite 5)) 100 5 rfl (by norm_num)])
     (by norm_num)⟩

/-- Counterexample to claim C4 as stated: `toNumber` does not return
"unavailable" for every input whose numeric result is non-finite — a
number-typed `Infinity` passes through unchanged (source line 47 returns a
value of number type as-is, with no finiteness check). -/
theorem C4_counterexample :
    toNumber (.num .inf) = some .inf ∧
    JSNum.isFinite .inf = false ∧
    toNumber (.num .inf) ≠ none :=
  ⟨rfl, rfl, by simp [toNumber]⟩

/-- Claim C4 (amended): `toNumber` is total and fails softly, returning
"unavailable" exactly when the input is `null`/`undefined`, a string whose
numeric coercion is NaN, or an object with no `toNumber` method and no
recognized BSON wrapper type whose fallback coercion is NaN; it never
raises and never substitutes 0 for such a value.  However, it does not
guarantee a finite result: an input already of number type (including NaN
and ±∞) is returned unchanged, finiteness being enforced by callers. -/
theorem C4_toNumber_soft_failure :
    (∀ v, toNumber v = none ↔
      v = .nullV ∨ v = .undefinedV ∨
      (∃ s c, v = .strV s c ∧ c.isNaN = true) ∨
      (∃ o, v = .objV o ∧ o.toNumberFn = none ∧
        o.bsontype ≠ some "Decimal128" ∧ o.bsontype ≠ some "Double" ∧
        o.bsontype ≠ some "Int32" ∧ o.coercion.isNaN = true)) ∧
    (∀ x, toNumber (.num x) = some x) := by
  constructor
  · intro v
    cases v with
    | nullV => simp [toNumber]
    | undefinedV => simp [toNumber]
    | num x => simp [toNumber]
    | bigintV n => simp [toNumber]
    | strV s c =>
        cases hc : c.isNaN <;> simp [toNumber, hc]
        exact ⟨s, c, ⟨rfl, rfl⟩, hc⟩
    | boolV b => simp [toNumber]
    | objV o =>
        cases hfn : o.toNumberFn with
        | some r => simp [toNumber, hfn]
        | none =>
            by_cases h1 : o.bsontype = some "Decimal128"
            · simp [toNumber, hfn, h1]
            · by_cases h2 : o.bsontype = some "Double"
              · simp [toNumber, hfn, h1, h2]
              · by_cases h3 : o.bsontype = some "Int32"
                · simp [toNumber, hfn, h1, h2, h3]
                · cases hc : o.coercion.isNaN <;>
                    simp [toNumber, hfn, h1, h2, h3, hc]
  · intro x
    rfl

/-! ## Availability-flag frame lemmas: nothing after `mongoUp.set(1)` on
the success path writes the availability gauge again. -/

lemma applyMemberHealth_mongoUp (s : ExporterState) (m : ReplMember) :
    (applyMemberHealth s m).mongoUp = s.mongoUp := by
  unfold applyMemberHealth
  split <;> rfl

lemma applyMemberState_mongoUp (s : ExporterState) (m : ReplMember) :
    (applyMemberState s m).mongoUp = s.mongoUp := by
  unfold applyMemberState
  split <;> rfl

lemma applyMember_mongoUp (s : ExporterState) (m : ReplMember) :
    (applyMember s m).mongoUp = s.mongoUp := by
  unfold applyMember
  rw [applyMemberState_mongoUp, applyMemberHealth_mongoUp]

lemma foldl_applyMember_mongoUp (l : List ReplMember) :
    ∀ s, ((l.foldl applyMember s)).mongoUp = s.mongoUp := by
  induction l with
  | nil => intro s; rfl
  | cons m rest ih =>
      intro s
      rw [List.foldl_cons, ih, applyMember_mongoUp]

lemma applyOplogHead_mongoUp (s : ExporterState) (l : List ReplMember) :
    (applyOplogHead s l).mongoUp = s.mongoUp := by
  unfold applyOplogHead
  split
  · split <;> rfl
  · rfl

lemma applyOplogSize_mongoUp (s : ExporterState) (v : JSValue) :
    (applyOplogSize s v).mongoUp = s.mongoUp := by
  unfold applyOplogSize
  split
  · split <;> rfl
  · rfl

/-- The topology collector never touches the availability gauge: its own
failure is absorbed inside its `try`/`catch` and the fallback writes only
the topology gauges. -/
lemma collectReplicaMetrics_mongoUp (s : ExporterState)
    (o : Except TopoErr ReplStatus) :
    (collectReplicaMetrics s o).mongoUp = s.mongoUp := by
  cases o with
  | error e => rfl
  | ok status =>
      show (applyOplogSize _ _).mongoUp = s.mongoUp
      rw [applyOplogSize_mongoUp, applyOplogHead_mongoUp, foldl_applyMember_mongoUp]

lemma setUptime_mongoUp (s : ExporterState) (u : JSValue) :
    (setUptime s u).mongoUp = s.mongoUp := by
  unfold setUptime
  split <;> rfl

lemma setMemResident_mongoUp (s : ExporterState) (mem : MemStats) :
    (setMemResident s mem).mongoUp = s.mongoUp := by
  unfold setMemResident
  split <;> rfl

lemma setMemVirtual_mongoUp (s : ExporterState) (mem : MemStats) :
    (setMemVirtual s mem).mongoUp = s.mongoUp := by
  unfold setMemVirtual
  split <;> rfl

lemma setMemoryMetrics_mongoUp (s : ExporterState) (mem : MemStats) :
    (setMemoryMetrics s mem).mongoUp = s.mongoUp := by
  unfold setMemoryMetrics
  rw [setMemVirtual_mongoUp, setMemResident_mongoUp]

lemma setConnCurrent_mongoUp (s : ExporterState) (c : ConnStats) :
    (setConnCurrent s c).mongoUp = s.mongoUp := by
  unfold setConnCurrent
  split <;> rfl

lemma setConnAvailable_mongoUp (s : ExporterState) (c : ConnStats) :
    (setConnAvailable s c).mongoUp = s.mongoUp := by
  unfold setConnAvailable
  split <;> rfl

lemma setConnections_mongoUp (s : ExporterState) (c : ConnStats) :
    (setConnections s c).mongoUp = s.mongoUp := by
  unfold setConnections
  rw [setConnAvailable_mongoUp, setConnCurrent_mongoUp]

/-- The gauge and counter updates of the success path never touch the
availability gauge: the counter-family updates only rewrite snapshot and
counter fields, and reduce away definitionally. -/
lemma applyServerStatus_mongoUp (s : ExporterState) (st : ServerStatus) :
    (applyServerStatus s st).mongoUp = s.mongoUp := by
  show (setConnections (setMemoryMetrics (setUptime s st.uptime)
      (st.mem.getD { resident := .undefinedV, virtualMem := .undefinedV }))
      (st.connections.getD { current := .undefinedV, available := .undefinedV })).mongoUp
    = s.mongoUp
  rw [setConnections_mongoUp, setMemoryMetrics_mongoUp, setUptime_mongoUp]

/-- Claim C5: the availability gauge is set to 0 only when `serverStatus`
itself fails; a cycle whose `serverStatus` succeeds while the topology
query fails ends with `mongodb_up` at 1. -/
theorem C5_availability_reflects_primary_request (s : ExporterState)
    (st : ServerStatus) (e : TopoErr) :
    (collectOnce s (.ok st) (.error e)).mongoUp = 1 := by
  show (collectReplicaMetrics (applyServerStatus { s with mongoUp := 1 } st)
    (.error e)).mongoUp = 1
  rw [collectReplicaMetrics_mongoUp, applyServerStatus_mongoUp]

/-- Claim C7: when the primary stats request fails, the whole cycle is the
single write `mongoUp := 0`: every counter total, every snapshot-store
baseline and every gauge keeps its pre-cycle value, for any outcome of the
(never reached) topology query, and the cycle still returns a state —
the `catch` swallows the error instead of crashing. -/
theorem C7_primary_failure_frame (s : ExporterState) (e : StatErr)
    (topo : Except TopoErr ReplStatus) :
    collectOnce s (.error e) topo = { s with mongoUp := 0 } := rfl

/-- The synthesized standalone topology view: member count, the health
series of the fixed `"standalone"` member, and its state series. -/
def standaloneView (s : ExporterState) : ℚ × Option ℚ × Option ℚ :=
  (s.replMembers, s.replHealth "standalone", s.replState "standalone" "standalone")

/-- Claim C6: on every failing topology query the collector returns
normally (it is a total function of the outcome) and synthesizes exactly
one standalone member — member count 1, health 1 under the fixed
`"standalone"` label, state 1 under the fixed `("standalone",
"standalone")` labels, and no other member series written — and the
fallback is deterministic: the result does not depend on which error
occurred, and a second consecutive failing cycle reproduces the identical
standalone view. -/
theorem C6_fallback_deterministic (s : ExporterState) (e1 e2 : TopoErr) :
    (collectReplicaMetrics s (.error e1)).replMembers = 1 ∧
    (collectReplicaMetrics s (.error e1)).replHealth "standalone" = some 1 ∧
    (collectReplicaMetrics s (.error e1)).replState "standalone" "standalone" = some 1 ∧
    (∀ m, m ≠ "standalone" →
      (collectReplicaMetrics s (.error e1)).replHealth m = s.replHealth m) ∧
    collectReplicaMetrics s (.error e1) = collectReplicaMetrics s (.error e2) ∧
    standaloneView
        (collectReplicaMetrics (collectReplicaMetrics s (.error e1)) (.error e2)) =
      standaloneView (collectReplicaMetrics s (.error e1)) := by
  refine ⟨rfl, ?_, ?_, ?_, rfl, ?_⟩
  · simp [collectReplicaMetrics, fset]
  · simp [collectReplicaMetrics, fset2]
  · intro m hm
    simp [collectReplicaMetrics, fset, hm]
  · simp [standaloneView, collectReplicaMetrics, fset, fset2]

/-- Witness for C6: from the start state, a timeout then a malformed
response; an unrelated member label `"m1"` is untouched by the fallback. -/
theorem C6_fallback_deterministic_witness :
    ("m1" : String) ≠ "standalone" ∧
    (collectReplicaMetrics initState (.error .timeout)).replHealth "m1" =
      initState.replHealth "m1" :=
  ⟨by decide,
   (C6_fallback_deterministic initState .timeout .malformed).2.2.2.1 "m1" (by decide)⟩

/-- A one-member clustered `replSetGetStatus` response, used to exhibit a
cycle whose member series survive a later fallback. -/
def c8Member : ReplMember where
  name := some "m1"
  stateStr := some "PRIMARY"
  stateToString := "1"
  state := .num (.finite 1)
  health := .num (.finite 1)
  optimeDateMs := none

/-- The clustered response containing only `c8Member`. -/
def c8Cluster : ReplStatus where
  members := some [c8Member]
  oplogSizeMB := .undefinedV

/-- Counterexample to claim C8 as stated: after a clustered cycle that
wrote the member series `"m1"`, a failing topology cycle leaves that
stale series exposed alongside the synthesized standalone member — the
fallback never deletes previously written per-member series, so the
exported state mixes the standalone synthesis with the previous clustered
view. -/
theorem C8_counterexample :
    (collectReplicaMetrics (collectReplicaMetrics initState (.ok c8Cluster))
        (.error .timeout)).replHealth "m1" = some 1 ∧
    (collectReplicaMetrics (collectReplicaMetrics initState (.ok c8Cluster))
        (.error .timeout)).replHealth "standalone" = some 1 ∧
    (collectReplicaMetrics (collectReplicaMetrics initState (.ok c8Cluster))
        (.error .timeout)).replMembers = 1 ∧
    ("m1" : String) ≠ "standalone" :=
  ⟨by decide, by decide, by decide, by decide⟩

/-- Claim C8 (amended): after a failing topology cycle the synthesized
standalone member is present and the member-count gauge reads 1, but the
fallback overwrites only the fixed standalone series and the scalar
topology gauges: every other `replHealth`/`replState` series keeps its
pre-cycle value, so member series written by an earlier clustered view
remain exposed next to the standalone synthesis (the exported per-member
state is not exclusive to one view). -/
theorem C8_fallback_not_exclusive (s : ExporterState) (e : TopoErr) :
    (collectReplicaMetrics s (.error e)).replHealth "standalone" = some 1 ∧
    (collectReplicaMetrics s (.error e)).replMembers = 1 ∧
    (∀ m, m ≠ "standalone" →
      (collectReplicaMetrics s (.error e)).replHealth m = s.replHealth m) ∧
    (∀ a b, ¬(a = "standalone" ∧ b = "standalone") →
      (collectReplicaMetrics s (.error e)).replState a b = s.replState a b) := by
  refine ⟨?_, rfl, ?_, ?_⟩
  · simp [collectReplicaMetrics, fset]
  · intro m hm
    simp [collectReplicaMetrics, fset, hm]
  · intro a b hab
    simp [collectReplicaMetrics, fset2, hab]

/-- Witness for C8 (amended): concretely, after cluster-then-failure the
stale series `"m1"` is preserved by the fallback, as is the state series
`("PRIMARY", "m1")`. -/
theorem C8_fallback_not_exclusive_witness :
    (collectReplicaMetrics (collectReplicaMetrics initState (.ok c8Cluster))
        (.error .timeout)).replHealth "m1" =
      (collectReplicaMetrics initState (.ok c8Cluster)).replHealth "m1" ∧
    (collectReplicaMetrics (collectReplicaMetrics initState (.ok c8Cluster))
        (.error .timeout)).replState "PRIMARY" "m1" =
      (collectReplicaMetrics initState (.ok c8Cluster)).replState "PRIMARY" "m1" :=
  ⟨(C8_fallback_not_exclusive (collectReplicaMetrics initState (.ok c8Cluster))
      .timeout).2.2.1 "m1" (by decide),
   (C8_fallback_not_exclusive (collectReplicaMetrics initState (.ok c8Cluster))
      .timeout).2.2.2 "PRIMARY" "m1" (by decide)⟩

/-- Claim C10: the fallback branch of the topology collector applies a
zero policy to the replication oplog gauges — on every failing topology
query the oplog head timestamp gauge is set to 0 and the allocated oplog
size series is set to 0, regardless of the previous cycle's values. -/
theorem C10_fallback_oplog_zero_policy (s : ExporterState) (e : TopoErr) :
    (collectReplicaMetrics s (.error e)).replOplogHead = 0 ∧
    (collectReplicaMetrics s (.error e)).replOplogSize "allocated" = some 0 :=
  ⟨rfl, by simp [collectReplicaMetrics, fset]⟩

end MongoExporter
